import Mathlib

/-!
Shallow embedding of the rust-raytracer rendering core.

Floating-point (`f64`/`f32`) arithmetic is embedded as exact real arithmetic
over `ℝ`.  The geometry and shading code of the current crate lives in
`src/raytracer.rs`, `src/body/ellipsoid.rs` and `src/body/mod.rs`; the vector
and camera primitives of the older crate live in `raytracer/src/lib.rs`.
Modules of the current crate that are not in the sources we have
(`point3d.rs`, `sphere.rs`, `materials.rs`, `config.rs`) are modelled from the
specification; each such definition carries a doc comment saying so.
-/

namespace Raytracer

/-- 3D point/vector, from `Point3D` in `raytracer/src/lib.rs` (f64 fields
embedded as reals). -/
@[ext]
structure Point3D where
  x : ℝ
  y : ℝ
  z : ℝ

namespace Point3D

/-- `Point3D::new`. -/
def new (x y z : ℝ) : Point3D := ⟨x, y, z⟩

/-- Componentwise addition (`impl Add for Point3D`). -/
instance : Add Point3D := ⟨fun p q => ⟨p.x + q.x, p.y + q.y, p.z + q.z⟩⟩

/-- Componentwise subtraction (`impl Sub for Point3D`). -/
instance : Sub Point3D := ⟨fun p q => ⟨p.x - q.x, p.y - q.y, p.z - q.z⟩⟩

/-- Componentwise multiplication (`impl Mul<Point3D> for Point3D`). -/
instance : Mul Point3D := ⟨fun p q => ⟨p.x * q.x, p.y * q.y, p.z * q.z⟩⟩

/-- Scalar multiplication (`impl Mul<f64> for Point3D`). -/
instance : HMul Point3D ℝ Point3D := ⟨fun p k => ⟨p.x * k, p.y * k, p.z * k⟩⟩

/-- Componentwise division (`impl Div<Point3D> for Point3D`). -/
noncomputable instance : Div Point3D := ⟨fun p q => ⟨p.x / q.x, p.y / q.y, p.z / q.z⟩⟩

/-- Scalar division (`impl Div<f64> for Point3D`). -/
noncomputable instance : HDiv Point3D ℝ Point3D := ⟨fun p k => ⟨p.x / k, p.y / k, p.z / k⟩⟩

/-- Componentwise negation.  Modelled from the spec: the `point3d.rs` of the
current crate is not among the sources; `-normal` in `ellipsoid.rs` requires
a negation, which on a componentwise vector type is componentwise. -/
instance : Neg Point3D := ⟨fun p => ⟨-p.x, -p.y, -p.z⟩⟩

instance : Zero Point3D := ⟨⟨0, 0, 0⟩⟩

/-- `Point3D::dot`. -/
def dot (p q : Point3D) : ℝ := p.x * q.x + p.y * q.y + p.z * q.z

/-- `Point3D::distance`. -/
noncomputable def distance (p q : Point3D) : ℝ :=
  Real.sqrt ((p.x - q.x) * (p.x - q.x) + (p.y - q.y) * (p.y - q.y) +
    (p.z - q.z) * (p.z - q.z))

/-- `Point3D::length` (distance to the origin). -/
noncomputable def length (p : Point3D) : ℝ := p.distance ⟨0, 0, 0⟩

/-- `Point3D::length_squared`.  Modelled from the spec: the current crate's
`point3d.rs` is not among the sources; `ellipsoid.rs` uses
`length_squared()`, the squared Euclidean length. -/
def length_squared (p : Point3D) : ℝ := p.x * p.x + p.y * p.y + p.z * p.z

/-- `Point3D::unit_vector`. -/
noncomputable def unit_vector (p : Point3D) : Point3D :=
  ⟨p.x / p.length, p.y / p.length, p.z / p.length⟩

end Point3D

/-- Linear RGB color (`palette::Srgb`, f32 channels embedded as reals). -/
@[ext]
structure Srgb where
  red : ℝ
  green : ℝ
  blue : ℝ

/-- `Srgb::new`. -/
def Srgb.new (r g b : ℝ) : Srgb := ⟨r, g, b⟩

/-- Modelled from the spec: `materials.rs` is not among the sources.  The
spec (§3, §4.3) gives the closed variant set
{Lambertian(albedo), Metal(reflective), Glass(refractive index),
Light(emissive color)}; the variant names `Material::Glass`,
`Material::Light`, `Material::Lambertian` also appear in `raytracer.rs`. -/
inductive Material where
  | lambertian (albedo : Srgb)
  | metal (albedo : Srgb) (fuzz : ℝ)
  | glass (index_of_refraction : ℝ)
  | light (emission : Srgb)

/-- `Ray` from `raytracer/src/lib.rs` / `ray.rs`. -/
structure Ray where
  origin : Point3D
  direction : Point3D

/-- `Ray::new`. -/
def Ray.new (origin direction : Point3D) : Ray := ⟨origin, direction⟩

/-- `Ray::at`: `origin + direction * t`. -/
def Ray.at (r : Ray) (t : ℝ) : Point3D := r.origin + r.direction * t

/-- `HitRecord` (fields as used in `ellipsoid.rs` and `raytracer.rs`; the
defining `ray.rs` is not among the sources, so the field list is taken from
the spec §3 and the construction site in `ellipsoid.rs`). -/
structure HitRecord where
  t : ℝ
  point : Point3D
  normal : Point3D
  front_face : Bool
  material : Material
  u : ℝ
  v : ℝ

/-- `Sphere` (its `sphere.rs` is not among the sources; fields
`center`, `radius`, `material` from the spec §3 and the uses
`light.center`, `s.material`, `Sphere::new(center, radius, material)` in
`raytracer.rs`). -/
structure Sphere where
  center : Point3D
  radius : ℝ
  material : Material

/-- `Sphere::new`. -/
def Sphere.new (center : Point3D) (radius : ℝ) (material : Material) : Sphere :=
  ⟨center, radius, material⟩

/-- `Ellipsoid` from `src/body/ellipsoid.rs`. -/
structure Ellipsoid where
  center : Point3D
  radii : Point3D
  material : Material

/-- `Ellipsoid::new`. -/
def Ellipsoid.new (center radii : Point3D) (material : Material) : Ellipsoid :=
  ⟨center, radii, material⟩

/-- `Body` from `src/body/mod.rs`. -/
inductive Body where
  | sphere (s : Sphere)
  | ellipsoid (e : Ellipsoid)

/-- `atan2(y, x)`: the angle of the plane point `(x, y)`, in `(-π, π]`,
as `f64::atan2`. -/
noncomputable def atan2 (y x : ℝ) : ℝ := Complex.arg ⟨x, y⟩

/-- `u_v_from_ellipsoid_hit_point` from `src/body/ellipsoid.rs`. -/
noncomputable def u_v_from_ellipsoid_hit_point (hit_point_on_ellipsoid radii : Point3D) :
    ℝ × ℝ :=
  let n := hit_point_on_ellipsoid / radii
  let x := n.x
  let y := n.y
  let z := n.z
  let u := (atan2 x z / (2 * Real.pi)) + 0.5
  let v := y * 0.5 + 0.5
  (u, v)

namespace Ellipsoid

/-- Quadratic coefficient `a = (ray.direction / self.radii).length_squared()`
of `Ellipsoid::hit`. -/
noncomputable def aCoeff (e : Ellipsoid) (ray : Ray) : ℝ :=
  (ray.direction / e.radii).length_squared

/-- `half_b = oc.dot(ray.direction / self.radii)` of `Ellipsoid::hit`. -/
noncomputable def halfB (e : Ellipsoid) (ray : Ray) : ℝ :=
  (ray.origin - e.center).dot (ray.direction / e.radii)

/-- `c = oc.length_squared() / self.radii.length_squared() - 1.0` of
`Ellipsoid::hit` (scalar division of the two squared lengths, exactly as the
source computes it). -/
noncomputable def cCoeff (e : Ellipsoid) (ray : Ray) : ℝ :=
  (ray.origin - e.center).length_squared / e.radii.length_squared - 1

/-- `discriminant = half_b * half_b - a * c` of `Ellipsoid::hit`. -/
noncomputable def disc (e : Ellipsoid) (ray : Ray) : ℝ :=
  e.halfB ray * e.halfB ray - e.aCoeff ray * e.cCoeff ray

/-- `root_a = ((-half_b) - sqrtd) / a` of `Ellipsoid::hit`. -/
noncomputable def rootA (e : Ellipsoid) (ray : Ray) : ℝ :=
  (-e.halfB ray - Real.sqrt (e.disc ray)) / e.aCoeff ray

/-- `root_b = ((-half_b) + sqrtd) / a` of `Ellipsoid::hit`. -/
noncomputable def rootB (e : Ellipsoid) (ray : Ray) : ℝ :=
  (-e.halfB ray + Real.sqrt (e.disc ray)) / e.aCoeff ray

/-- The `HitRecord` that `Ellipsoid::hit` builds for an accepted root. -/
noncomputable def mkHit (e : Ellipsoid) (ray : Ray) (root : ℝ) : HitRecord :=
  let p := ray.at root
  let normal := (p - e.center) / (e.radii * e.radii)
  let front_face := ray.direction.dot normal < 0
  let uv := u_v_from_ellipsoid_hit_point (p - e.center) e.radii
  { t := root
    point := p
    normal := if front_face then normal else -normal
    front_face := decide front_face
    material := e.material
    u := uv.1
    v := uv.2 }

/-- `Ellipsoid::hit` from `src/body/ellipsoid.rs`: if the discriminant is
nonnegative, try `root_a` then `root_b` against the open range
`(t_min, t_max)`; return the record for the first accepted root. -/
noncomputable def hit (e : Ellipsoid) (ray : Ray) (t_min t_max : ℝ) :
    Option HitRecord :=
  if e.disc ray ≥ 0 then
    if e.rootA ray < t_max ∧ e.rootA ray > t_min then some (e.mkHit ray (e.rootA ray))
    else if e.rootB ray < t_max ∧ e.rootB ray > t_min then some (e.mkHit ray (e.rootB ray))
    else none
  else none

end Ellipsoid

namespace Sphere

/-- Modelled from the spec: `sphere.rs` is not among the sources.  Spec §4.2:
solve the quadratic `|O + tD − C|² = r²`, so `a = |D|²`,
`half_b = dot(O−C, D)`, `c = |O−C|² − r²`. -/
def aCoeff (_s : Sphere) (ray : Ray) : ℝ :=
  ray.direction.length_squared

/-- Modelled from the spec (§4.2): `half_b = dot(O−C, D)`. -/
def halfB (s : Sphere) (ray : Ray) : ℝ :=
  (ray.origin - s.center).dot ray.direction

/-- Modelled from the spec (§4.2): `c = |O−C|² − r²`. -/
def cCoeff (s : Sphere) (ray : Ray) : ℝ :=
  (ray.origin - s.center).length_squared - s.radius * s.radius

/-- Discriminant of the sphere quadratic, `half_b² − a·c`. -/
def disc (s : Sphere) (ray : Ray) : ℝ :=
  s.halfB ray * s.halfB ray - s.aCoeff ray * s.cCoeff ray

/-- Smaller quadratic root `(−half_b − √disc)/a`. -/
noncomputable def rootA (s : Sphere) (ray : Ray) : ℝ :=
  (-s.halfB ray - Real.sqrt (s.disc ray)) / s.aCoeff ray

/-- Larger quadratic root `(−half_b + √disc)/a`. -/
noncomputable def rootB (s : Sphere) (ray : Ray) : ℝ :=
  (-s.halfB ray + Real.sqrt (s.disc ray)) / s.aCoeff ray

/-- Modelled from the spec (§3, §4.2): the record for an accepted sphere
root; outward normal `(P−C)/r` (unit length for a sphere), flipped to face
the ray, `front_face` recording the original orientation test; texture
coordinates from the radius-normalized hit point. -/
noncomputable def mkHit (s : Sphere) (ray : Ray) (root : ℝ) : HitRecord :=
  let p := ray.at root
  let normal := (p - s.center) / s.radius
  let front_face := ray.direction.dot normal < 0
  let uv := u_v_from_ellipsoid_hit_point (p - s.center) ⟨s.radius, s.radius, s.radius⟩
  { t := root
    point := p
    normal := if front_face then normal else -normal
    front_face := decide front_face
    material := s.material
    u := uv.1
    v := uv.2 }

/-- Modelled from the spec (§4.2): `Sphere::hit` discards non-real or
out-of-range roots and prefers the smaller valid root. -/
noncomputable def hit (s : Sphere) (ray : Ray) (t_min t_max : ℝ) :
    Option HitRecord :=
  if s.disc ray ≥ 0 then
    if s.rootA ray < t_max ∧ s.rootA ray > t_min then some (s.mkHit ray (s.rootA ray))
    else if s.rootB ray < t_max ∧ s.rootB ray > t_min then some (s.mkHit ray (s.rootB ray))
    else none
  else none

end Sphere

/-- `t` is a solution of the ellipsoid intersection quadratic
`a·t² + 2·half_b·t + c = 0` with the coefficients `Ellipsoid::hit`
computes. -/
def Ellipsoid.isRoot (e : Ellipsoid) (ray : Ray) (t : ℝ) : Prop :=
  e.aCoeff ray * t ^ 2 + 2 * e.halfB ray * t + e.cCoeff ray = 0

/-- `t` is a solution of the sphere intersection quadratic
`a·t² + 2·half_b·t + c = 0` with the coefficients `Sphere::hit` computes. -/
def Sphere.isRoot (s : Sphere) (ray : Ray) (t : ℝ) : Prop :=
  s.aCoeff ray * t ^ 2 + 2 * s.halfB ray * t + s.cCoeff ray = 0

/-- `t` is an intersection parameter of `ray` with the surface of `b`. -/
def Body.isRoot (b : Body) (ray : Ray) (t : ℝ) : Prop :=
  match b with
  | .sphere s => s.isRoot ray t
  | .ellipsoid e => e.isRoot ray t

/-- Nondegeneracy of a body: an ellipsoid's per-axis radii are nonzero (the
spec §3 requires radii strictly positive; zero radii make the source divide
by zero). -/
def Body.nondeg (b : Body) : Prop :=
  match b with
  | .sphere _ => True
  | .ellipsoid e => e.radii.x ≠ 0 ∧ e.radii.y ≠ 0 ∧ e.radii.z ≠ 0

/-- `impl Hittable for Body` from `src/body/mod.rs`. -/
noncomputable def Body.hit (b : Body) (ray : Ray) (t_min t_max : ℝ) :
    Option HitRecord :=
  match b with
  | .sphere s => s.hit ray t_min t_max
  | .ellipsoid e => e.hit ray t_min t_max

/-- Loop body of `hit_world` from `src/raytracer.rs`: fold over the world,
shrinking `closest_so_far` to each accepted hit's `t`. -/
noncomputable def hit_world_go (world : List Body) (r : Ray) (t_min : ℝ)
    (closest : ℝ) (acc : Option HitRecord) : Option HitRecord :=
  match world with
  | [] => acc
  | b :: rest =>
    match b.hit r t_min closest with
    | some h => hit_world_go rest r t_min h.t (some h)
    | none => hit_world_go rest r t_min closest acc

/-- `hit_world` from `src/raytracer.rs`. -/
noncomputable def hit_world (world : List Body) (r : Ray) (t_min t_max : ℝ) :
    Option HitRecord :=
  hit_world_go world r t_min t_max none

/-- `find_lights` from `src/raytracer.rs`: keep the `Body::Sphere` members
(`flat_map` to the sphere payload, anything else to `None`), then filter by
`Material::Light`. -/
def find_lights (world : List Body) : List Sphere :=
  (world.filterMap fun x =>
    match x with
    | Body.sphere s => some s
    | _ => none).filter fun s =>
      match s.material with
      | Material.light _ => true
      | _ => false

/-- `clamp` from `src/raytracer.rs`. -/
noncomputable def clamp (value : ℝ) : ℝ :=
  if value < 0 then 0
  else if value > 1 then 1
  else value

/-- `Camera` from `raytracer/src/lib.rs`. -/
structure Camera where
  origin : Point3D
  lower_left_corner : Point3D
  focal_length : ℝ
  horizontal : Point3D
  vertical : Point3D

/-- `Camera::new` from `raytracer/src/lib.rs`. -/
noncomputable def Camera.new (origin : Point3D) (viewport_height viewport_width focal_length : ℝ) :
    Camera :=
  let horizontal := Point3D.new viewport_width 0 0
  let vertical := Point3D.new 0 viewport_height 0
  let lower_left_corner :=
    origin - horizontal / (2 : ℝ) - vertical / (2 : ℝ) - Point3D.new 0 0 focal_length
  { origin := origin
    lower_left_corner := lower_left_corner
    focal_length := focal_length
    horizontal := horizontal
    vertical := vertical }

/-- The value of `f64::MAX`, `(2 − 2⁻⁵²)·2¹⁰²³`. -/
def f64MAX : ℝ := 2 ^ 1024 - 2 ^ 971

/-- Sky texture payload.  Modelled from the spec: `config.rs` is not among
the sources; `raytracer.rs` destructures it as
`Some((pixels, width, height, _))` with byte pixels, and the spec §6 calls it
a "texture image with width/height/pixel data" (the unused fourth tuple
component is dropped). -/
structure SkyTexture where
  pixels : List ℕ
  width : ℕ
  height : ℕ

/-- Modelled from the spec (§6) and the use `sky.texture` in
`raytracer.rs`: an optional equirectangular texture; `None` means the
gradient sky. -/
structure Sky where
  texture : Option SkyTexture

/-- Scene configuration.  Field list from the construction of `Config` in
the `test_ray_color` test of `src/raytracer.rs` (its defining `config.rs` is
not among the sources). -/
structure Config where
  width : ℕ
  height : ℕ
  samples_per_pixel : ℕ
  max_depth : ℕ
  sky : Option Sky
  camera : Camera
  objects : List Body

/-- The light-sampling probability of `ray_color`
(`src/raytracer.rs` lines 90–96): `0.05` for `Material::Glass`, `0.1`
otherwise. -/
def probOf : Material → ℝ
  | .glass _ => 0.05
  | _ => 0.1

/-- Horizontal texel index of the sky-texture lookup in `ray_color`:
`(u * (*width - 1) as f32) as usize` (the `usize` subtraction is truncated,
the final cast truncates toward zero). -/
noncomputable def texX (u : ℝ) (width : ℕ) : ℕ :=
  (⌊u * ((width - 1 : ℕ) : ℝ)⌋).toNat

/-- Vertical texel index of the sky-texture lookup in `ray_color`:
`((1.0 - t) * (*height - 1) as f32) as usize`. -/
noncomputable def texY (t : ℝ) (height : ℕ) : ℕ :=
  (⌊(1 - t) * ((height - 1 : ℕ) : ℝ)⌋).toNat

/-- The gradient-sky vertical interpolation parameter of `ray_color`:
`clamp(0.5 * (ray.direction.unit_vector().y() as f32 + 1.0))`. -/
noncomputable def skyT (ray : Ray) : ℝ :=
  clamp (0.5 * (ray.direction.unit_vector.y + 1))

/-- The sky-texture horizontal parameter of `ray_color`:
`clamp(0.5 * (ray.direction.unit_vector().x() as f32 + 1.0))`. -/
noncomputable def skyU (ray : Ray) : ℝ :=
  clamp (0.5 * (ray.direction.unit_vector.x + 1))

/-- Modelled from the spec: `materials.rs` with the `Scatterable`
implementations is not among the sources.  Big-step relation for
`material.scatter(ray, hit_record)` following the contract of spec §4.3,
with the material's internal random choices (scatter direction,
reflect-vs-refract) left nondeterministic and the thread RNG stream it may
consume threaded through:
Lambertian always scatters (attenuation = albedo); Metal either reflects
into the outward half-space or absorbs (`None`); Glass returns exactly one
ray with attenuation 1; Light returns no scattered ray and its emission as
attenuation. -/
inductive ScatterEval : Material → Ray → HitRecord → List ℝ →
    Option (Option Ray × Srgb) → List ℝ → Prop where
  | lambertian (albedo : Srgb) (ray : Ray) (hr : HitRecord) (dir : Point3D)
      (rng rng' : List ℝ) :
      ScatterEval (.lambertian albedo) ray hr rng
        (some (some (Ray.new hr.point dir), albedo)) rng'
  | metalScatter (albedo : Srgb) (fuzz : ℝ) (ray : Ray) (hr : HitRecord)
      (dir : Point3D) (rng rng' : List ℝ) (hdir : dir.dot hr.normal > 0) :
      ScatterEval (.metal albedo fuzz) ray hr rng
        (some (some (Ray.new hr.point dir), albedo)) rng'
  | metalAbsorb (albedo : Srgb) (fuzz : ℝ) (ray : Ray) (hr : HitRecord)
      (rng rng' : List ℝ) :
      ScatterEval (.metal albedo fuzz) ray hr rng none rng'
  | glass (ior : ℝ) (ray : Ray) (hr : HitRecord) (out : Ray)
      (rng rng' : List ℝ) :
      ScatterEval (.glass ior) ray hr rng (some (some out, Srgb.new 1 1 1)) rng'
  | light (emission : Srgb) (ray : Ray) (hr : HitRecord) (rng rng' : List ℝ) :
      ScatterEval (.light emission) ray hr rng (some (none, emission)) rng'

mutual
/-- Big-step evaluation of `ray_color` from `src/raytracer.rs`
(lines 69–159), with the `f64` draws of `rand::thread_rng` made explicit as
a stream (`List ℝ`) threaded through: `RayColorEval ray scene lights
max_depth depth rng color rng'` holds when `ray_color` can return `color`,
leaving the stream `rng'`. -/
inductive RayColorEval : Ray → Config → List Sphere → ℕ → ℕ → List ℝ →
    Srgb → List ℝ → Prop where
  /-- `if depth <= 0 { return Srgb::new(0.0, 0.0, 0.0); }` -/
  | depthZero (ray : Ray) (scene : Config) (lights : List Sphere) (md : ℕ)
      (rng : List ℝ) :
      RayColorEval ray scene lights md 0 rng (Srgb.new 0 0 0) rng
  /-- No hit and `scene.sky` is `None`: black. -/
  | noHitNoSky (ray : Ray) (scene : Config) (lights : List Sphere)
      (md depth : ℕ) (rng : List ℝ) (h0 : 0 < depth)
      (hh : hit_world scene.objects ray 0.001 f64MAX = none)
      (hs : scene.sky = none) :
      RayColorEval ray scene lights md depth rng (Srgb.new 0 0 0) rng
  /-- No hit, sky configured without texture: the gradient
  `((1−t)·1 + t·0.5, (1−t)·1 + t·0.7, (1−t)·1 + t·1)`. -/
  | noHitGradient (ray : Ray) (scene : Config) (lights : List Sphere)
      (md depth : ℕ) (rng : List ℝ) (sk : Sky) (h0 : 0 < depth)
      (hh : hit_world scene.objects ray 0.001 f64MAX = none)
      (hs : scene.sky = some sk) (htex : sk.texture = none) :
      RayColorEval ray scene lights md depth rng
        (Srgb.new ((1 - skyT ray) * 1 + skyT ray * 0.5)
          ((1 - skyT ray) * 1 + skyT ray * 0.7)
          ((1 - skyT ray) * 1 + skyT ray * 1)) rng
  /-- No hit, sky texture configured: look up the three channel bytes at
  `(y * width + x) * 3 + k` and scale by `0.7 / 255`.  The rule requires the
  three indexings to be in bounds (out of bounds the Rust indexing panics and
  there is no result). -/
  | noHitTexture (ray : Ray) (scene : Config) (lights : List Sphere)
      (md depth : ℕ) (rng : List ℝ) (sk : Sky) (tex : SkyTexture)
      (x y pr pg pb : ℕ) (h0 : 0 < depth)
      (hh : hit_world scene.objects ray 0.001 f64MAX = none)
      (hs : scene.sky = some sk) (htex : sk.texture = some tex)
      (hx : x = texX (skyU ray) tex.width)
      (hy : y = texY (skyT ray) tex.height)
      (hpr : tex.pixels.get? ((y * tex.width + x) * 3) = some pr)
      (hpg : tex.pixels.get? ((y * tex.width + x) * 3 + 1) = some pg)
      (hpb : tex.pixels.get? ((y * tex.width + x) * 3 + 2) = some pb) :
      RayColorEval ray scene lights md depth rng
        (Srgb.new (0.7 * (pr : ℝ) / 255) (0.7 * (pg : ℝ) / 255)
          (0.7 * (pb : ℝ) / 255)) rng
  /-- Hit, and `scatter` returned the outer `None`: absorbed, black. -/
  | hitAbsorbed (ray : Ray) (scene : Config) (lights : List Sphere)
      (md depth : ℕ) (rng rng1 : List ℝ) (hr : HitRecord) (h0 : 0 < depth)
      (hh : hit_world scene.objects ray 0.001 f64MAX = some hr)
      (hsc : ScatterEval hr.material ray hr rng none rng1) :
      RayColorEval ray scene lights md depth rng (Srgb.new 0 0 0) rng1
  /-- Hit, `scatter` returned `(None, albedo)`: the light-sampling block
  still runs (consuming its draws), then `match scattered_ray { None =>
  albedo }` returns the attenuation. -/
  | hitEmissive (ray : Ray) (scene : Config) (lights : List Sphere)
      (md depth : ℕ) (rng rng1 rng2 : List ℝ) (hr : HitRecord)
      (albedo lc : Srgb) (h0 : 0 < depth)
      (hh : hit_world scene.objects ray 0.001 f64MAX = some hr)
      (hsc : ScatterEval hr.material ray hr rng (some (none, albedo)) rng1)
      (hlg : LightGateEval scene lights hr albedo md depth rng1 lc rng2) :
      RayColorEval ray scene lights md depth rng albedo rng2
  /-- Hit, `scatter` returned `(Some(sr), albedo)`: run the light-sampling
  block, recursively trace `sr` at `depth - 1`, and return the per-channel
  clamped sum `clamp(light + albedo * target)`. -/
  | hitScattered (ray : Ray) (scene : Config) (lights : List Sphere)
      (md depth : ℕ) (rng rng1 rng2 rng3 : List ℝ) (hr : HitRecord)
      (sr : Ray) (albedo lc tc : Srgb) (h0 : 0 < depth)
      (hh : hit_world scene.objects ray 0.001 f64MAX = some hr)
      (hsc : ScatterEval hr.material ray hr rng (some (some sr, albedo)) rng1)
      (hlg : LightGateEval scene lights hr albedo md depth rng1 lc rng2)
      (hrec : RayColorEval sr scene lights md (depth - 1) rng2 tc rng3) :
      RayColorEval ray scene lights md depth rng
        (Srgb.new (clamp (lc.red + albedo.red * tc.red))
          (clamp (lc.green + albedo.green * tc.green))
          (clamp (lc.blue + albedo.blue * tc.blue))) rng3

/-- Big-step evaluation of the direct light-sampling block of `ray_color`
(`src/raytracer.rs` lines 87–112): `LightGateEval scene lights hr albedo
max_depth depth rng lightColor rng'`.  The gate
`lights.len() > 0 && rng.gen::<f64>() > (1.0 - lights.len() as f64 * prob)
&& depth > (max_depth - 2)` short-circuits: no draw is consumed when
`lights` is empty; one draw is consumed otherwise.  `max_depth - 2` is the
`usize` (truncated) subtraction. -/
inductive LightGateEval : Config → List Sphere → HitRecord → Srgb → ℕ → ℕ →
    List ℝ → Srgb → List ℝ → Prop where
  /-- `lights.len() > 0` fails: the sums stay `0.0`. -/
  | noLights (scene : Config) (hr : HitRecord) (albedo : Srgb) (md depth : ℕ)
      (rng : List ℝ) :
      LightGateEval scene [] hr albedo md depth rng (Srgb.new 0 0 0) rng
  /-- The drawn `f64` does not exceed `1 - lights.len() * prob`. -/
  | drawFail (scene : Config) (lights : List Sphere) (hr : HitRecord)
      (albedo : Srgb) (md depth : ℕ) (d : ℝ) (rng : List ℝ)
      (hne : lights ≠ [])
      (hd : ¬ d > 1 - (lights.length : ℝ) * probOf hr.material) :
      LightGateEval scene lights hr albedo md depth (d :: rng)
        (Srgb.new 0 0 0) rng
  /-- The draw passes but `depth > max_depth - 2` fails. -/
  | depthFail (scene : Config) (lights : List Sphere) (hr : HitRecord)
      (albedo : Srgb) (md depth : ℕ) (d : ℝ) (rng : List ℝ)
      (hne : lights ≠ [])
      (hd : d > 1 - (lights.length : ℝ) * probOf hr.material)
      (hdep : ¬ depth > md - 2) :
      LightGateEval scene lights hr albedo md depth (d :: rng)
        (Srgb.new 0 0 0) rng
  /-- All three gate conditions hold: probe every light and average the
  accumulated sums over `lights.len()`. -/
  | gatePass (scene : Config) (lights : List Sphere) (hr : HitRecord)
      (albedo : Srgb) (md depth : ℕ) (d : ℝ) (rng rng1 : List ℝ) (s : Srgb)
      (hne : lights ≠ [])
      (hd : d > 1 - (lights.length : ℝ) * probOf hr.material)
      (hdep : depth > md - 2)
      (hsum : LightsEval scene lights lights hr.point albedo rng s rng1) :
      LightGateEval scene lights hr albedo md depth (d :: rng)
        (Srgb.new (s.red / (lights.length : ℝ)) (s.green / (lights.length : ℝ))
          (s.blue / (lights.length : ℝ))) rng1

/-- Big-step evaluation of the `for light in lights` loop of `ray_color`
(`src/raytracer.rs` lines 101–108): for each light, build the shadow ray
`Ray::new(hit_record.point, light.center - hit_record.point)`, trace it with
`ray_color(&light_ray, scene, lights, 2, 1)` and accumulate
`albedo * target_color` per channel.  `LightsEval scene lights remaining
point albedo rng sums rng'`. -/
inductive LightsEval : Config → List Sphere → List Sphere → Point3D → Srgb →
    List ℝ → Srgb → List ℝ → Prop where
  | nil (scene : Config) (lights : List Sphere) (p : Point3D) (albedo : Srgb)
      (rng : List ℝ) :
      LightsEval scene lights [] p albedo rng (Srgb.new 0 0 0) rng
  | cons (scene : Config) (lights : List Sphere) (l : Sphere)
      (rest : List Sphere) (p : Point3D) (albedo : Srgb)
      (rng rng1 rng2 : List ℝ) (tc s : Srgb)
      (hprobe : RayColorEval (Ray.new p (l.center - p)) scene lights 2 1 rng
        tc rng1)
      (hrest : LightsEval scene lights rest p albedo rng1 s rng2) :
      LightsEval scene lights (l :: rest) p albedo rng
        (Srgb.new (albedo.red * tc.red + s.red)
          (albedo.green * tc.green + s.green)
          (albedo.blue * tc.blue + s.blue)) rng2
end

/-- The `(max_depth, depth)` arguments at the two recursive call sites of
`ray_color` in `src/raytracer.rs`: the light probe on line 104 calls
`ray_color(&light_ray, scene, lights, 2, 1)`, and the indirect bounce on
line 115 calls `ray_color(&sr, scene, lights, max_depth, depth - 1)`.  Both
sites sit under the `depth <= 0` early return, so they require `0 < depth`. -/
inductive CallStep : ℕ × ℕ → ℕ × ℕ → Prop where
  | probe (md depth : ℕ) (h : 0 < depth) : CallStep (md, depth) (2, 1)
  | indirect (md depth : ℕ) (h : 0 < depth) :
      CallStep (md, depth) (md, depth - 1)

/-! ### Concrete fixtures for witnesses and counterexamples -/

/-- A unit-radii ellipsoid at the origin with a Lambertian material. -/
noncomputable def eUnit : Ellipsoid :=
  Ellipsoid.new (Point3D.new 0 0 0) (Point3D.new 1 1 1)
    (Material.lambertian (Srgb.new 0.5 0.5 0.5))

/-- A ray from `(0, -6, 0)` straight up. -/
def rayUp : Ray := Ray.new (Point3D.new 0 (-6) 0) (Point3D.new 0 1 0)

/-- A ray from `(1, 1, 1)` along `+z`. -/
def rayDiag : Ray := Ray.new (Point3D.new 1 1 1) (Point3D.new 0 0 1)

/-- The ray of the `test_ray_color` regression: origin `(0,0,0)`,
direction `(1,0,0)`. -/
def rayX : Ray := Ray.new (Point3D.new 0 0 0) (Point3D.new 1 0 0)

/-- A small scene with a gradient sky and an empty world. -/
noncomputable def sceneSkyEmpty : Config :=
  { width := 80, height := 60, samples_per_pixel := 1, max_depth := 2,
    sky := some { texture := none },
    camera := Camera.new (Point3D.new 0 0 0) 2 2 1, objects := [] }

/-- A small scene containing only `eUnit`, with a gradient sky. -/
noncomputable def sceneOneBody : Config :=
  { width := 80, height := 60, samples_per_pixel := 1, max_depth := 2,
    sky := some { texture := none },
    camera := Camera.new (Point3D.new 0 0 0) 2 2 1,
    objects := [Body.ellipsoid eUnit] }

/-- The hit record `eUnit` produces on `rayUp` at its accepted root. -/
noncomputable def hrUp : HitRecord := eUnit.mkHit rayUp (eUnit.rootA rayUp)

/-! ### Componentwise lemmas for the vector operations -/

@[simp]
theorem Point3D.add_x (p q : Point3D) : (p + q).x = p.x + q.x := rfl

@[simp]
theorem Point3D.add_y (p q : Point3D) : (p + q).y = p.y + q.y := rfl

@[simp]
theorem Point3D.add_z (p q : Point3D) : (p + q).z = p.z + q.z := rfl

@[simp]
theorem Point3D.sub_x (p q : Point3D) : (p - q).x = p.x - q.x := rfl

@[simp]
theorem Point3D.sub_y (p q : Point3D) : (p - q).y = p.y - q.y := rfl

@[simp]
theorem Point3D.sub_z (p q : Point3D) : (p - q).z = p.z - q.z := rfl

@[simp]
theorem Point3D.mul_x (p q : Point3D) : (p * q).x = p.x * q.x := rfl

@[simp]
theorem Point3D.mul_y (p q : Point3D) : (p * q).y = p.y * q.y := rfl

@[simp]
theorem Point3D.mul_z (p q : Point3D) : (p * q).z = p.z * q.z := rfl

@[simp]
theorem Point3D.smul_x (p : Point3D) (k : ℝ) : (p * k).x = p.x * k := rfl

@[simp]
theorem Point3D.smul_y (p : Point3D) (k : ℝ) : (p * k).y = p.y * k := rfl

@[simp]
theorem Point3D.smul_z (p : Point3D) (k : ℝ) : (p * k).z = p.z * k := rfl

@[simp]
theorem Point3D.div_x (p q : Point3D) : (p / q).x = p.x / q.x := rfl

@[simp]
theorem Point3D.div_y (p q : Point3D) : (p / q).y = p.y / q.y := rfl

@[simp]
theorem Point3D.div_z (p q : Point3D) : (p / q).z = p.z / q.z := rfl

@[simp]
theorem Point3D.sdiv_x (p : Point3D) (k : ℝ) : (p / k).x = p.x / k := rfl

@[simp]
theorem Point3D.sdiv_y (p : Point3D) (k : ℝ) : (p / k).y = p.y / k := rfl

@[simp]
theorem Point3D.sdiv_z (p : Point3D) (k : ℝ) : (p / k).z = p.z / k := rfl

@[simp]
theorem Point3D.neg_x (p : Point3D) : (-p).x = -p.x := rfl

@[simp]
theorem Point3D.neg_y (p : Point3D) : (-p).y = -p.y := rfl

@[simp]
theorem Point3D.neg_z (p : Point3D) : (-p).z = -p.z := rfl

@[simp]
theorem Point3D.new_x (a b c : ℝ) : (Point3D.new a b c).x = a := rfl

@[simp]
theorem Point3D.new_y (a b c : ℝ) : (Point3D.new a b c).y = b := rfl

@[simp]
theorem Point3D.new_z (a b c : ℝ) : (Point3D.new a b c).z = c := rfl

@[simp]
theorem Point3D.zero_x : (0 : Point3D).x = 0 := rfl

@[simp]
theorem Point3D.zero_y : (0 : Point3D).y = 0 := rfl

@[simp]
theorem Point3D.zero_z : (0 : Point3D).z = 0 := rfl

theorem Point3D.dot_neg_right (p q : Point3D) : p.dot (-q) = -(p.dot q) := by
  simp only [Point3D.dot, Point3D.neg_x, Point3D.neg_y, Point3D.neg_z]
  ring

theorem Point3D.length_squared_nonneg (p : Point3D) : 0 ≤ p.length_squared := by
  unfold Point3D.length_squared
  nlinarith [mul_self_nonneg p.x, mul_self_nonneg p.y, mul_self_nonneg p.z]

theorem Point3D.length_squared_pos (p : Point3D) (h : p ≠ 0) :
    0 < p.length_squared := by
  rcases lt_or_eq_of_le p.length_squared_nonneg with hlt | heq
  · exact hlt
  · exfalso
    apply h
    have hx : p.x * p.x + p.y * p.y + p.z * p.z = 0 := heq.symm
    ext <;> simp only [Point3D.zero_x, Point3D.zero_y, Point3D.zero_z] <;>
      nlinarith [mul_self_nonneg p.x, mul_self_nonneg p.y, mul_self_nonneg p.z]

/-! ### Quadratic-root facts -/

theorem quadRoots_iff (A HB C : ℝ) (hA : A ≠ 0) (hd : 0 ≤ HB * HB - A * C)
    (t : ℝ) :
    A * t ^ 2 + 2 * HB * t + C = 0 ↔
      t = (-HB + Real.sqrt (HB * HB - A * C)) / A ∨
      t = (-HB - Real.sqrt (HB * HB - A * C)) / A := by
  have hmul := Real.mul_self_sqrt hd
  have hsq : discrim A (2 * HB) C =
      (2 * Real.sqrt (HB * HB - A * C)) * (2 * Real.sqrt (HB * HB - A * C)) := by
    unfold discrim
    nlinarith [hmul]
  have h2 := quadratic_eq_zero_iff hA hsq t
  have e1 : (-(2 * HB) + 2 * Real.sqrt (HB * HB - A * C)) / (2 * A) =
      (-HB + Real.sqrt (HB * HB - A * C)) / A := by
    field_simp
    ring
  have e2 : (-(2 * HB) - 2 * Real.sqrt (HB * HB - A * C)) / (2 * A) =
      (-HB - Real.sqrt (HB * HB - A * C)) / A := by
    field_simp
    ring
  rw [show A * t ^ 2 + 2 * HB * t + C = A * (t * t) + 2 * HB * t + C from by ring,
    h2, e1, e2]

theorem quadNoRoot (A HB C : ℝ) (hd : HB * HB - A * C < 0) (t : ℝ) :
    ¬(A * t ^ 2 + 2 * HB * t + C = 0) := by
  have h := quadratic_ne_zero_of_discrim_ne_sq
    (a := A) (b := 2 * HB) (c := C) ?_ t
  · intro hc
    apply h
    rw [← hc]
    ring
  · intro s
    unfold discrim
    nlinarith [sq_nonneg s]

/-- Shared contract of the root-selection `if` cascade used by both
`Ellipsoid::hit` and the spec-modelled `Sphere::hit`: the result, when
`some`, carries the smallest quadratic root inside the open range
`(tmin, tmax)`; when `none`, no root lies in the range. -/
theorem quad_hit_spec (A HB C tmin tmax : ℝ) (mk : ℝ → HitRecord)
    (hA : 0 < A) (hmk : ∀ t, (mk t).t = t) (res : Option HitRecord)
    (hres : res = if HB * HB - A * C ≥ 0 then
        (if (-HB - Real.sqrt (HB * HB - A * C)) / A < tmax ∧
            (-HB - Real.sqrt (HB * HB - A * C)) / A > tmin then
          some (mk ((-HB - Real.sqrt (HB * HB - A * C)) / A))
        else if (-HB + Real.sqrt (HB * HB - A * C)) / A < tmax ∧
            (-HB + Real.sqrt (HB * HB - A * C)) / A > tmin then
          some (mk ((-HB + Real.sqrt (HB * HB - A * C)) / A))
        else none)
      else none) :
    (∀ h, res = some h →
      (tmin < h.t ∧ h.t < tmax) ∧ (A * h.t ^ 2 + 2 * HB * h.t + C = 0) ∧
      ∀ t, A * t ^ 2 + 2 * HB * t + C = 0 → tmin < t → t < tmax → h.t ≤ t)
    ∧ (res = none →
      ∀ t, A * t ^ 2 + 2 * HB * t + C = 0 → ¬(tmin < t ∧ t < tmax)) := by
  by_cases hd : HB * HB - A * C ≥ 0
  · have hs : 0 ≤ Real.sqrt (HB * HB - A * C) := Real.sqrt_nonneg _
    have hiff := quadRoots_iff A HB C hA.ne' hd
    set rA := (-HB - Real.sqrt (HB * HB - A * C)) / A with hrA
    set rB := (-HB + Real.sqrt (HB * HB - A * C)) / A with hrB
    have hAB : rA ≤ rB := by
      rw [hrA, hrB]
      exact (div_le_div_iff_of_pos_right hA).mpr (by linarith)
    rw [if_pos hd] at hres
    by_cases h1 : rA < tmax ∧ rA > tmin
    · rw [if_pos h1] at hres
      constructor
      · intro h hsome
        rw [hres] at hsome
        have hh := Option.some.inj hsome
        have ht : h.t = rA := by rw [← hh, hmk]
        refine ⟨⟨by rw [ht]; exact h1.2, by rw [ht]; exact h1.1⟩,
          by rw [ht]; exact (hiff rA).mpr (Or.inr rfl), ?_⟩
        intro t htroot _ _
        rcases (hiff t).mp htroot with h2 | h2
        · subst h2; rw [ht]; exact hAB
        · subst h2; rw [ht]
      · intro hnone
        rw [hres] at hnone
        simp at hnone
    · rw [if_neg h1] at hres
      by_cases h2 : rB < tmax ∧ rB > tmin
      · rw [if_pos h2] at hres
        constructor
        · intro h hsome
          rw [hres] at hsome
          have hh := Option.some.inj hsome
          have ht : h.t = rB := by rw [← hh, hmk]
          refine ⟨⟨by rw [ht]; exact h2.2, by rw [ht]; exact h2.1⟩,
            by rw [ht]; exact (hiff rB).mpr (Or.inl rfl), ?_⟩
          intro t htroot htmin htmax
          rcases (hiff t).mp htroot with h3 | h3
          · subst h3; rw [ht]
          · subst h3; exact absurd ⟨htmax, htmin⟩ h1
        · intro hnone
          rw [hres] at hnone
          simp at hnone
      · rw [if_neg h2] at hres
        constructor
        · intro h hsome
          rw [hres] at hsome
          simp at hsome
        · intro _ t htroot hrange
          rcases (hiff t).mp htroot with h3 | h3
          · subst h3; exact h2 ⟨hrange.2, hrange.1⟩
          · subst h3; exact h1 ⟨hrange.2, hrange.1⟩
  · rw [if_neg hd] at hres
    push_neg at hd
    constructor
    · intro h hsome
      rw [hres] at hsome
      simp at hsome
    · intro _ t htroot _
      exact quadNoRoot A HB C hd t htroot

/-- `Ellipsoid::hit` returns the smallest quadratic root in `(t_min, t_max)`
or `none` when no root is in range. -/
theorem ellipsoid_hit_spec (e : Ellipsoid) (ray : Ray) (tmin tmax : ℝ)
    (hA : 0 < e.aCoeff ray) :
    (∀ h, e.hit ray tmin tmax = some h →
      (tmin < h.t ∧ h.t < tmax) ∧ e.isRoot ray h.t ∧
      ∀ t, e.isRoot ray t → tmin < t → t < tmax → h.t ≤ t)
    ∧ (e.hit ray tmin tmax = none →
      ∀ t, e.isRoot ray t → ¬(tmin < t ∧ t < tmax)) :=
  quad_hit_spec (e.aCoeff ray) (e.halfB ray) (e.cCoeff ray) tmin tmax
    (e.mkHit ray) hA (fun _ => rfl) (e.hit ray tmin tmax) rfl

/-- The spec-modelled `Sphere::hit` returns the smallest quadratic root in
`(t_min, t_max)` or `none` when no root is in range. -/
theorem sphere_hit_spec (s : Sphere) (ray : Ray) (tmin tmax : ℝ)
    (hA : 0 < s.aCoeff ray) :
    (∀ h, s.hit ray tmin tmax = some h →
      (tmin < h.t ∧ h.t < tmax) ∧ s.isRoot ray h.t ∧
      ∀ t, s.isRoot ray t → tmin < t → t < tmax → h.t ≤ t)
    ∧ (s.hit ray tmin tmax = none →
      ∀ t, s.isRoot ray t → ¬(tmin < t ∧ t < tmax)) :=
  quad_hit_spec (s.aCoeff ray) (s.halfB ray) (s.cCoeff ray) tmin tmax
    (s.mkHit ray) hA (fun _ => rfl) (s.hit ray tmin tmax) rfl

theorem sphere_aCoeff_pos (s : Sphere) (ray : Ray) (hD : ray.direction ≠ 0) :
    0 < s.aCoeff ray :=
  Point3D.length_squared_pos _ hD

theorem ellipsoid_aCoeff_pos (e : Ellipsoid) (ray : Ray)
    (hD : ray.direction ≠ 0)
    (hr : e.radii.x ≠ 0 ∧ e.radii.y ≠ 0 ∧ e.radii.z ≠ 0) :
    0 < e.aCoeff ray := by
  apply Point3D.length_squared_pos
  intro hzero
  apply hD
  have hx : ray.direction.x / e.radii.x = 0 := by
    have := congrArg Point3D.x hzero
    simpa using this
  have hy : ray.direction.y / e.radii.y = 0 := by
    have := congrArg Point3D.y hzero
    simpa using this
  have hz : ray.direction.z / e.radii.z = 0 := by
    have := congrArg Point3D.z hzero
    simpa using this
  ext
  · simp only [Point3D.zero_x]
    exact (div_eq_zero_iff.mp hx).resolve_right hr.1
  · simp only [Point3D.zero_y]
    exact (div_eq_zero_iff.mp hy).resolve_right hr.2.1
  · simp only [Point3D.zero_z]
    exact (div_eq_zero_iff.mp hz).resolve_right hr.2.2

/-- `Body::hit` (dispatch) returns the smallest intersection parameter in
`(t_min, t_max)` or `none`. -/
theorem Body.hit_spec (b : Body) (ray : Ray) (tmin tmax : ℝ)
    (hD : ray.direction ≠ 0) (hnd : b.nondeg) :
    (∀ h, b.hit ray tmin tmax = some h →
      (tmin < h.t ∧ h.t < tmax) ∧ b.isRoot ray h.t ∧
      ∀ t, b.isRoot ray t → tmin < t → t < tmax → h.t ≤ t)
    ∧ (b.hit ray tmin tmax = none →
      ∀ t, b.isRoot ray t → ¬(tmin < t ∧ t < tmax)) := by
  cases b with
  | sphere s => exact sphere_hit_spec s ray tmin tmax (sphere_aCoeff_pos s ray hD)
  | ellipsoid e => exact ellipsoid_hit_spec e ray tmin tmax (ellipsoid_aCoeff_pos e ray hD hnd)

/-- Invariant of the `hit_world` fold: with `closest` the current
`closest_so_far` and `acc` the current best record, the fold returns the
overall closest in-range intersection. -/
theorem hit_world_go_spec (world : List Body) (ray : Ray) (tmin tmax : ℝ)
    (hD : ray.direction ≠ 0) :
    ∀ (closest : ℝ) (acc : Option HitRecord),
    (∀ b ∈ world, b.nondeg) →
    closest ≤ tmax →
    (acc = none → closest = tmax) →
    (∀ h, acc = some h → h.t = closest ∧ tmin < h.t ∧ h.t < tmax) →
    (∀ h, hit_world_go world ray tmin closest acc = some h →
        (tmin < h.t ∧ h.t < tmax) ∧ h.t ≤ closest ∧
        ((∃ b ∈ world, b.isRoot ray h.t) ∨ acc = some h) ∧
        (∀ b ∈ world, ∀ t, b.isRoot ray t → tmin < t → t < closest → h.t ≤ t))
    ∧ (hit_world_go world ray tmin closest acc = none →
        acc = none ∧
        ∀ b ∈ world, ∀ t, b.isRoot ray t → ¬(tmin < t ∧ t < closest)) := by
  induction world with
  | nil =>
    intro closest acc _ _ hnone hsome
    constructor
    · intro h hres
      have hacc := hsome h hres
      exact ⟨⟨hacc.2.1, hacc.2.2⟩, le_of_eq hacc.1, Or.inr hres, by simp⟩
    · intro hres
      exact ⟨hres, by simp⟩
  | cons b rest ih =>
    intro closest acc hnd hle hnone hsome
    have hbnd : b.nondeg := hnd b (List.mem_cons_self b rest)
    have hrest : ∀ b' ∈ rest, b'.nondeg :=
      fun b' hb' => hnd b' (List.mem_cons_of_mem b hb')
    have hbspec := Body.hit_spec b ray tmin closest hD hbnd
    cases hbhit : b.hit ray tmin closest with
    | some h1 =>
      have hb1 := hbspec.1 h1 hbhit
      have h1tmax : h1.t < tmax := lt_of_lt_of_le hb1.1.2 hle
      have hstep : hit_world_go (b :: rest) ray tmin closest acc =
          hit_world_go rest ray tmin h1.t (some h1) := by
        rw [hit_world_go, hbhit]
      have ihspec := ih h1.t (some h1) hrest (le_of_lt h1tmax)
        (by intro hc; cases hc)
        (by
          intro h hh
          cases hh
          exact ⟨rfl, hb1.1.1, h1tmax⟩)
      constructor
      · intro h hres
        rw [hstep] at hres
        have ihres := ihspec.1 h hres
        refine ⟨ihres.1, le_trans ihres.2.1 (le_of_lt hb1.1.2), ?_, ?_⟩
        · rcases ihres.2.2.1 with hroot | hacc
          · rcases hroot with ⟨b', hb', hr'⟩
            exact Or.inl ⟨b', List.mem_cons_of_mem b hb', hr'⟩
          · have : h = h1 := Option.some.inj hacc.symm
            subst this
            exact Or.inl ⟨b, List.mem_cons_self b rest, hb1.2.1⟩
        · intro b' hb' t htroot htmin htmax
          rcases List.mem_cons.mp hb' with hb'' | hb''
          · subst hb''
            have := hb1.2.2 t htroot htmin htmax
            exact le_trans ihres.2.1 this
          · by_cases hlt : t < h1.t
            · exact ihres.2.2.2 b' hb'' t htroot htmin hlt
            · push_neg at hlt
              exact le_trans ihres.2.1 hlt
      · intro hres
        rw [hstep] at hres
        have := (ihspec.2 hres).1
        cases this
    | none =>
      have hstep : hit_world_go (b :: rest) ray tmin closest acc =
          hit_world_go rest ray tmin closest acc := by
        rw [hit_world_go, hbhit]
      have hbnone := hbspec.2 hbhit
      have ihspec := ih closest acc hrest hle hnone hsome
      constructor
      · intro h hres
        rw [hstep] at hres
        have ihres := ihspec.1 h hres
        refine ⟨ihres.1, ihres.2.1, ?_, ?_⟩
        · rcases ihres.2.2.1 with hroot | hacc
          · rcases hroot with ⟨b', hb', hr'⟩
            exact Or.inl ⟨b', List.mem_cons_of_mem b hb', hr'⟩
          · exact Or.inr hacc
        · intro b' hb' t htroot htmin htmax
          rcases List.mem_cons.mp hb' with hb'' | hb''
          · subst hb''
            exact absurd ⟨htmin, htmax⟩ (hbnone t htroot)
          · exact ihres.2.2.2 b' hb'' t htroot htmin htmax
      · intro hres
        rw [hstep] at hres
        have ihres := ihspec.2 hres
        refine ⟨ihres.1, ?_⟩
        intro b' hb' t htroot
        rcases List.mem_cons.mp hb' with hb'' | hb''
        · subst hb''
          exact hbnone t htroot
        · exact ihres.2 b' hb'' t htroot

/-- If the discriminant is nonnegative and `root_a` is in range,
`Ellipsoid::hit` accepts `root_a`. -/
theorem Ellipsoid.hit_rootA_first (e : Ellipsoid) (ray : Ray) (tmin tmax : ℝ)
    (hd : e.disc ray ≥ 0) (h1 : e.rootA ray < tmax) (h2 : e.rootA ray > tmin) :
    e.hit ray tmin tmax = some (e.mkHit ray (e.rootA ray)) := by
  unfold Ellipsoid.hit
  rw [if_pos hd, if_pos ⟨h1, h2⟩]

/-- Any record returned by `Ellipsoid::hit` is the record `mkHit` builds at
its own `t`. -/
theorem Ellipsoid.hit_eq_mkHit (e : Ellipsoid) (ray : Ray) (tmin tmax : ℝ)
    (h : HitRecord) (hh : e.hit ray tmin tmax = some h) :
    h = e.mkHit ray h.t := by
  unfold Ellipsoid.hit at hh
  split_ifs at hh with h1 h2 h3
  all_goals
    first
      | exact Option.noConfusion hh
      | (rw [← Option.some.inj hh]; try rfl)

/-- C1: `hit_world` returns the hit record whose `t` is the minimal
intersection parameter in `(t_min, t_max)` over all surfaces of the world
(`none` when no surface intersects in that range), and on a single
ellipsoid with both quadratic roots in `(0, t_max)` it returns the smaller
root `root_a`. -/
theorem hit_world_closest_intersection :
    (∀ (world : List Body) (ray : Ray) (tmin tmax : ℝ),
      ray.direction ≠ 0 → (∀ b ∈ world, b.nondeg) →
      (∀ h, hit_world world ray tmin tmax = some h →
        (tmin < h.t ∧ h.t < tmax) ∧ (∃ b ∈ world, b.isRoot ray h.t) ∧
        (∀ b ∈ world, ∀ t, b.isRoot ray t → tmin < t → t < tmax → h.t ≤ t))
      ∧ (hit_world world ray tmin tmax = none →
        ∀ b ∈ world, ∀ t, b.isRoot ray t → ¬(tmin < t ∧ t < tmax)))
    ∧ (∀ (e : Ellipsoid) (ray : Ray) (tmax : ℝ),
      ray.direction ≠ 0 →
      e.radii.x ≠ 0 ∧ e.radii.y ≠ 0 ∧ e.radii.z ≠ 0 →
      e.disc ray ≥ 0 →
      0 < e.rootA ray → e.rootA ray < tmax →
      0 < e.rootB ray → e.rootB ray < tmax →
      e.rootA ray ≤ e.rootB ray ∧
      hit_world [Body.ellipsoid e] ray 0 tmax =
        some (e.mkHit ray (e.rootA ray)) ∧
      (e.mkHit ray (e.rootA ray)).t = e.rootA ray) := by
  constructor
  · intro world ray tmin tmax hD hnd
    have hspec := hit_world_go_spec world ray tmin tmax hD tmax none hnd
      le_rfl (fun _ => rfl) (fun h hh => Option.noConfusion hh)
    constructor
    · intro h hh
      have hres := hspec.1 h hh
      exact ⟨hres.1, hres.2.2.1.resolve_right (fun hc => Option.noConfusion hc),
        hres.2.2.2⟩
    · intro hh
      exact (hspec.2 hh).2
  · intro e ray tmax hD hr hdisc hA0 hAmax hB0 hBmax
    have hApos := ellipsoid_aCoeff_pos e ray hD hr
    refine ⟨?_, ?_, rfl⟩
    · unfold Ellipsoid.rootA Ellipsoid.rootB
      exact (div_le_div_iff_of_pos_right hApos).mpr
        (by linarith [Real.sqrt_nonneg (e.disc ray)])
    · have hhit : (Body.ellipsoid e).hit ray 0 tmax =
          some (e.mkHit ray (e.rootA ray)) :=
        e.hit_rootA_first ray 0 tmax hdisc hAmax hA0
      show hit_world_go [Body.ellipsoid e] ray 0 tmax none = _
      rw [hit_world_go, hhit]
      rfl

/-! ### Concrete evaluations of `Ellipsoid::hit` on the fixtures -/

theorem rayUp_direction_ne_zero : rayUp.direction ≠ 0 := by
  intro h
  have h1 : (1 : ℝ) = 0 := by
    simpa [rayUp, Ray.new] using congrArg Point3D.y h
  exact one_ne_zero h1

theorem rayDiag_direction_ne_zero : rayDiag.direction ≠ 0 := by
  intro h
  have h1 : (1 : ℝ) = 0 := by
    simpa [rayDiag, Ray.new] using congrArg Point3D.z h
  exact one_ne_zero h1

theorem eUnit_radii_ne_zero :
    eUnit.radii.x ≠ 0 ∧ eUnit.radii.y ≠ 0 ∧ eUnit.radii.z ≠ 0 := by
  refine ⟨?_, ?_, ?_⟩ <;> norm_num [eUnit, Ellipsoid.new]

theorem eUnit_aCoeff_up : eUnit.aCoeff rayUp = 1 := by
  norm_num [eUnit, rayUp, Ellipsoid.new, Ray.new, Ellipsoid.aCoeff,
    Point3D.length_squared]

theorem eUnit_halfB_up : eUnit.halfB rayUp = -6 := by
  norm_num [eUnit, rayUp, Ellipsoid.new, Ray.new, Ellipsoid.halfB,
    Point3D.dot]

theorem eUnit_cCoeff_up : eUnit.cCoeff rayUp = 11 := by
  norm_num [eUnit, rayUp, Ellipsoid.new, Ray.new, Ellipsoid.cCoeff,
    Point3D.length_squared]

theorem eUnit_disc_up : eUnit.disc rayUp = 25 := by
  rw [Ellipsoid.disc, eUnit_aCoeff_up, eUnit_halfB_up, eUnit_cCoeff_up]
  norm_num

theorem eUnit_sqrtd_up : Real.sqrt (eUnit.disc rayUp) = 5 := by
  rw [eUnit_disc_up, show (25 : ℝ) = 5 ^ 2 from by norm_num]
  exact Real.sqrt_sq (by norm_num)

theorem eUnit_rootA_up : eUnit.rootA rayUp = 1 := by
  rw [Ellipsoid.rootA, eUnit_sqrtd_up, eUnit_halfB_up, eUnit_aCoeff_up]
  norm_num

theorem eUnit_rootB_up : eUnit.rootB rayUp = 11 := by
  rw [Ellipsoid.rootB, eUnit_sqrtd_up, eUnit_halfB_up, eUnit_aCoeff_up]
  norm_num

theorem eUnit_aCoeff_diag : eUnit.aCoeff rayDiag = 1 := by
  norm_num [eUnit, rayDiag, Ellipsoid.new, Ray.new, Ellipsoid.aCoeff,
    Point3D.length_squared]

theorem eUnit_halfB_diag : eUnit.halfB rayDiag = 1 := by
  norm_num [eUnit, rayDiag, Ellipsoid.new, Ray.new, Ellipsoid.halfB,
    Point3D.dot]

theorem eUnit_cCoeff_diag : eUnit.cCoeff rayDiag = 0 := by
  norm_num [eUnit, rayDiag, Ellipsoid.new, Ray.new, Ellipsoid.cCoeff,
    Point3D.length_squared]

theorem eUnit_disc_diag : eUnit.disc rayDiag = 1 := by
  rw [Ellipsoid.disc, eUnit_aCoeff_diag, eUnit_halfB_diag, eUnit_cCoeff_diag]
  norm_num

theorem eUnit_sqrtd_diag : Real.sqrt (eUnit.disc rayDiag) = 1 := by
  rw [eUnit_disc_diag]
  exact Real.sqrt_one

theorem eUnit_rootA_diag : eUnit.rootA rayDiag = -2 := by
  rw [Ellipsoid.rootA, eUnit_sqrtd_diag, eUnit_halfB_diag, eUnit_aCoeff_diag]
  norm_num

theorem eUnit_hit_up :
    eUnit.hit rayUp 0 100 = some (eUnit.mkHit rayUp (eUnit.rootA rayUp)) :=
  eUnit.hit_rootA_first rayUp 0 100 (by rw [eUnit_disc_up]; norm_num)
    (by rw [eUnit_rootA_up]; norm_num) (by rw [eUnit_rootA_up]; norm_num)

theorem eUnit_hit_diag :
    eUnit.hit rayDiag (-3) 10 =
      some (eUnit.mkHit rayDiag (eUnit.rootA rayDiag)) :=
  eUnit.hit_rootA_first rayDiag (-3) 10 (by rw [eUnit_disc_diag]; norm_num)
    (by rw [eUnit_rootA_diag]; norm_num) (by rw [eUnit_rootA_diag]; norm_num)

theorem eUnit_mkHit_v_up : (eUnit.mkHit rayUp (eUnit.rootA rayUp)).v = -2 := by
  rw [eUnit_rootA_up]
  show (eUnit.mkHit rayUp 1).v = -2
  norm_num [Ellipsoid.mkHit, u_v_from_ellipsoid_hit_point, eUnit, rayUp,
    Ellipsoid.new, Ray.new, Ray.at]

theorem eUnit_mkHit_normal_diag :
    (eUnit.mkHit rayDiag (eUnit.rootA rayDiag)).normal = Point3D.new 1 1 (-1) := by
  rw [eUnit_rootA_diag]
  show (eUnit.mkHit rayDiag (-2)).normal = Point3D.new 1 1 (-1)
  have hp : rayDiag.at (-2) = Point3D.new 1 1 (-1) := by
    ext <;> norm_num [rayDiag, Ray.new, Ray.at]
  have hn : (rayDiag.at (-2) - eUnit.center) / (eUnit.radii * eUnit.radii) =
      Point3D.new 1 1 (-1) := by
    rw [hp]
    ext <;> norm_num [eUnit, Ellipsoid.new]
  have hdot : rayDiag.direction.dot (Point3D.new 1 1 (-1)) = -1 := by
    norm_num [rayDiag, Ray.new, Point3D.dot]
  show (if rayDiag.direction.dot
      ((rayDiag.at (-2) - eUnit.center) / (eUnit.radii * eUnit.radii)) < 0
    then (rayDiag.at (-2) - eUnit.center) / (eUnit.radii * eUnit.radii)
    else -((rayDiag.at (-2) - eUnit.center) / (eUnit.radii * eUnit.radii))) =
      Point3D.new 1 1 (-1)
  rw [hn, hdot]
  rw [if_pos (by norm_num : (-1 : ℝ) < 0)]

/-- Witness for C1 at a concrete ellipsoid and ray: `root_a = 1`,
`root_b = 11`, both in `(0, 100)`. -/
theorem hit_world_closest_intersection_witness :
    eUnit.rootA rayUp ≤ eUnit.rootB rayUp ∧
    hit_world [Body.ellipsoid eUnit] rayUp 0 100 =
      some (eUnit.mkHit rayUp (eUnit.rootA rayUp)) ∧
    (eUnit.mkHit rayUp (eUnit.rootA rayUp)).t = eUnit.rootA rayUp :=
  hit_world_closest_intersection.2 eUnit rayUp 100
    rayUp_direction_ne_zero
    eUnit_radii_ne_zero
    (by rw [eUnit_disc_up]; norm_num)
    (by rw [eUnit_rootA_up]; norm_num)
    (by rw [eUnit_rootA_up]; norm_num)
    (by rw [eUnit_rootB_up]; norm_num)
    (by rw [eUnit_rootB_up]; norm_num)

/-- C3 (amended): every record returned by `Ellipsoid::hit` has
`front_face = (dot(D, outward) < 0)` for the outward normal
`(P−C)/r²`, stores that outward normal flipped to oppose the ray, and
satisfies `dot(D, stored normal) ≤ 0`; the stored normal is not unit length
in general. -/
theorem ellipsoid_hit_normal_orientation :
    ∀ (e : Ellipsoid) (ray : Ray) (tmin tmax : ℝ) (h : HitRecord),
      e.hit ray tmin tmax = some h →
      (h.front_face = true ↔
        ray.direction.dot ((h.point - e.center) / (e.radii * e.radii)) < 0) ∧
      (h.normal =
        if ray.direction.dot ((h.point - e.center) / (e.radii * e.radii)) < 0
          then (h.point - e.center) / (e.radii * e.radii)
          else -((h.point - e.center) / (e.radii * e.radii))) ∧
      ray.direction.dot h.normal ≤ 0 := by
  intro e ray tmin tmax h hh
  have he := Ellipsoid.hit_eq_mkHit e ray tmin tmax h hh
  set r := h.t with hr
  rw [he]
  have hp : (e.mkHit ray r).point = ray.at r := rfl
  have hff : (e.mkHit ray r).front_face =
      decide (ray.direction.dot ((ray.at r - e.center) / (e.radii * e.radii)) < 0) :=
    rfl
  have hnrm : (e.mkHit ray r).normal =
      if ray.direction.dot ((ray.at r - e.center) / (e.radii * e.radii)) < 0
        then (ray.at r - e.center) / (e.radii * e.radii)
        else -((ray.at r - e.center) / (e.radii * e.radii)) := rfl
  rw [hp, hff, hnrm]
  refine ⟨⟨of_decide_eq_true, decide_eq_true⟩, rfl, ?_⟩
  by_cases hlt :
      ray.direction.dot ((ray.at r - e.center) / (e.radii * e.radii)) < 0
  · rw [if_pos hlt]
    exact le_of_lt hlt
  · rw [if_neg hlt]
    rw [Point3D.dot_neg_right]
    push_neg at hlt
    linarith

/-- Witness for C3 at a concrete hit. -/
theorem ellipsoid_hit_normal_orientation_witness :
    ((eUnit.mkHit rayDiag (eUnit.rootA rayDiag)).front_face = true ↔
      rayDiag.direction.dot
        (((eUnit.mkHit rayDiag (eUnit.rootA rayDiag)).point - eUnit.center) /
          (eUnit.radii * eUnit.radii)) < 0) ∧
    ((eUnit.mkHit rayDiag (eUnit.rootA rayDiag)).normal =
      if rayDiag.direction.dot
          (((eUnit.mkHit rayDiag (eUnit.rootA rayDiag)).point - eUnit.center) /
            (eUnit.radii * eUnit.radii)) < 0
        then ((eUnit.mkHit rayDiag (eUnit.rootA rayDiag)).point - eUnit.center) /
          (eUnit.radii * eUnit.radii)
        else -(((eUnit.mkHit rayDiag (eUnit.rootA rayDiag)).point - eUnit.center) /
          (eUnit.radii * eUnit.radii))) ∧
    rayDiag.direction.dot (eUnit.mkHit rayDiag (eUnit.rootA rayDiag)).normal ≤ 0 :=
  ellipsoid_hit_normal_orientation eUnit rayDiag (-3) 10
    (eUnit.mkHit rayDiag (eUnit.rootA rayDiag)) eUnit_hit_diag

/-- Counterexample for C3 as stated: a returned hit record whose stored
normal has squared length `3`, hence is not unit length. -/
theorem ellipsoid_hit_normal_not_unit :
    ((eUnit.hit rayDiag (-3) 10).map fun h => h.normal.length_squared) =
      some 3 ∧ (3 : ℝ) ≠ 1 := by
  constructor
  · rw [eUnit_hit_diag]
    simp only [Option.map_some']
    rw [eUnit_mkHit_normal_diag]
    norm_num [Point3D.length_squared]
  · norm_num

/-- C5 (code bug): at the failing input — unit-radii ellipsoid at the
origin, ray from `(0,−6,0)` along `+y`, `t ∈ (0, 100)` — `Ellipsoid::hit`
returns a record with texture coordinate `v = −2`, outside `[0, 1]`.  (The
source's `c` coefficient divides the two squared lengths as scalars,
contradicting its own `// Element-wise division` comment, so the accepted
root does not lie on the ellipsoid and `v = y·0.5 + 0.5` is unbounded.) -/
theorem ellipsoid_hit_texture_v_out_of_range :
    ((eUnit.hit rayUp 0 100).map fun h => h.v) = some (-2) ∧
    ¬(0 ≤ (-2 : ℝ)) := by
  constructor
  · rw [eUnit_hit_up]
    simp only [Option.map_some']
    rw [eUnit_mkHit_v_up]
  · norm_num

/-- C2 (amended): `find_lights` returns exactly the `Body::Sphere` surfaces
whose material is the `Light` variant — `Body::Ellipsoid` surfaces are never
returned — and over a world of one Light sphere and one Lambertian sphere it
returns exactly one element. -/
theorem find_lights_sphere_lights :
    (∀ (world : List Body) (s : Sphere),
      s ∈ find_lights world ↔
        Body.sphere s ∈ world ∧ ∃ em, s.material = Material.light em)
    ∧ (find_lights
        [Body.sphere (Sphere.new (Point3D.new 0 0 (-1)) 0.5
            (Material.light (Srgb.new 1 1 1))),
          Body.sphere (Sphere.new (Point3D.new 0 0 (-1)) 0.5
            (Material.lambertian (Srgb.new 0.5 0.5 0.5)))]).length = 1 := by
  constructor
  · intro world s
    unfold find_lights
    rw [List.mem_filter, List.mem_filterMap]
    constructor
    · rintro ⟨⟨b, hb, hfb⟩, hmat⟩
      cases b with
      | sphere s' =>
        have hss : s' = s := Option.some.inj hfb
        subst hss
        refine ⟨hb, ?_⟩
        cases hsm : s'.material with
        | lambertian alb => rw [hsm] at hmat; cases hmat
        | metal alb fuzz => rw [hsm] at hmat; cases hmat
        | glass ior => rw [hsm] at hmat; cases hmat
        | light em => exact ⟨em, rfl⟩
      | ellipsoid e => exact Option.noConfusion hfb
    · rintro ⟨hb, em, hem⟩
      refine ⟨⟨Body.sphere s, hb, rfl⟩, ?_⟩
      rw [hem]
  · rfl

/-- Counterexample for C2 as stated: a world containing exactly one
Light-material surface (an ellipsoid) and one Lambertian surface (a
sphere); `find_lights` returns the empty list, not one element. -/
theorem find_lights_misses_ellipsoid_light :
    find_lights
      [Body.ellipsoid (Ellipsoid.new (Point3D.new 0 0 (-1))
          (Point3D.new 0.5 0.5 0.5) (Material.light (Srgb.new 1 1 1))),
        Body.sphere (Sphere.new (Point3D.new 0 0 (-1)) 0.5
          (Material.lambertian (Srgb.new 0.5 0.5 0.5)))] = [] := rfl

/-- Witness for C2's amended characterization at a concrete world. -/
theorem find_lights_sphere_lights_witness :
    Sphere.new (Point3D.new 0 0 (-1)) 0.5 (Material.light (Srgb.new 1 1 1)) ∈
      find_lights [Body.sphere (Sphere.new (Point3D.new 0 0 (-1)) 0.5
        (Material.light (Srgb.new 1 1 1)))] :=
  (find_lights_sphere_lights.1
    [Body.sphere (Sphere.new (Point3D.new 0 0 (-1)) 0.5
      (Material.light (Srgb.new 1 1 1)))]
    (Sphere.new (Point3D.new 0 0 (-1)) 0.5
      (Material.light (Srgb.new 1 1 1)))).mpr
    ⟨List.mem_singleton.mpr rfl, Srgb.new 1 1 1, rfl⟩

/-- C8: `Camera::new` sets `lower_left_corner = origin − horizontal/2 −
vertical/2 − (0,0,focal_length)`; with origin `(0,0,0)`, viewport height
`2.0`, viewport width `(800/600 as integer division) · 2.0` and focal
length `1.0` it is exactly `(−1,−1,−1)`. -/
theorem camera_lower_left_corner :
    (∀ (origin : Point3D) (vh vw fl : ℝ),
      (Camera.new origin vh vw fl).lower_left_corner =
        origin - Point3D.new vw 0 0 / (2 : ℝ) - Point3D.new 0 vh 0 / (2 : ℝ) -
          Point3D.new 0 0 fl)
    ∧ (Camera.new (Point3D.new 0 0 0) 2 (((800 / 600 : ℕ) : ℝ) * 2)
        1).lower_left_corner = Point3D.new (-1) (-1) (-1) := by
  constructor
  · intro origin vh vw fl
    rfl
  · ext <;> norm_num [Camera.new]

/-- Witness for C8's invariant at concrete camera parameters. -/
theorem camera_lower_left_corner_witness :
    (Camera.new (Point3D.new 1 2 3) 4 6 5).lower_left_corner =
      Point3D.new 1 2 3 - Point3D.new 6 0 0 / (2 : ℝ) -
        Point3D.new 0 4 0 / (2 : ℝ) - Point3D.new 0 0 5 :=
  camera_lower_left_corner.1 (Point3D.new 1 2 3) 4 6 5

/-- C7: `ray_color` called with `depth = 0` returns exactly `(0,0,0)`,
consuming no randomness and performing no intersection, for every ray,
scene, lights list and `max_depth`; and such an evaluation always exists. -/
theorem ray_color_depth_zero_black :
    (∀ (ray : Ray) (scene : Config) (lights : List Sphere) (md : ℕ)
      (rng : List ℝ) (c : Srgb) (rng1 : List ℝ),
      RayColorEval ray scene lights md 0 rng c rng1 →
      c = Srgb.new 0 0 0 ∧ rng1 = rng)
    ∧ (∀ (ray : Ray) (scene : Config) (lights : List Sphere) (md : ℕ)
      (rng : List ℝ),
      RayColorEval ray scene lights md 0 rng (Srgb.new 0 0 0) rng) := by
  constructor
  · intro ray scene lights md rng c rng1 h
    cases h <;> first | exact ⟨rfl, rfl⟩ | omega
  · intro ray scene lights md rng
    exact RayColorEval.depthZero ray scene lights md rng

/-- Witness for C7 at a concrete call. -/
theorem ray_color_depth_zero_black_witness :
    Srgb.new 0 0 0 = Srgb.new 0 0 0 ∧ ([] : List ℝ) = [] :=
  ray_color_depth_zero_black.1 rayX sceneSkyEmpty [] 2 [] (Srgb.new 0 0 0) []
    (RayColorEval.depthZero rayX sceneSkyEmpty [] 2 [])

/-- C9: if the initial call has `max_depth ≥ 2`, every recursive call that
`ray_color` can reach (the light probe passes `max_depth = 2`, the indirect
bounce passes `max_depth` unchanged) again has `max_depth ≥ 2`, so the
`usize` subtraction `max_depth - 2` in the light-sampling gate never
underflows: truncated and exact subtraction agree. -/
theorem ray_color_max_depth_no_underflow :
    ∀ (md0 d0 md d : ℕ), 2 ≤ md0 →
      Relation.ReflTransGen CallStep (md0, d0) (md, d) →
      2 ≤ md ∧ md - 2 + 2 = md := by
  intro md0 d0 md d h2 hsteps
  have key : ∀ (p q : ℕ × ℕ), Relation.ReflTransGen CallStep p q →
      2 ≤ p.1 → 2 ≤ q.1 := by
    intro p q hpq
    induction hpq with
    | refl => exact fun hp => hp
    | tail hab hbc ih =>
      intro hp
      have hb := ih hp
      cases hbc with
      | probe md1 d1 h1 => norm_num
      | indirect md1 d1 h1 => exact hb
  have hmd : 2 ≤ md := key (md0, d0) (md, d) hsteps h2
  exact ⟨hmd, by omega⟩

/-- Witness for C9 along a concrete probe step. -/
theorem ray_color_max_depth_no_underflow_witness :
    2 ≤ 2 ∧ 2 - 2 + 2 = 2 :=
  ray_color_max_depth_no_underflow 5 3 2 1 (by norm_num)
    (Relation.ReflTransGen.single (CallStep.probe 5 3 (by norm_num)))

theorem clamp_bounds (v : ℝ) : 0 ≤ clamp v ∧ clamp v ≤ 1 := by
  unfold clamp
  split_ifs with h1 h2
  · norm_num
  · norm_num
  · push_neg at h1 h2
    exact ⟨h1, h2⟩

theorem texX_le (u : ℝ) (w : ℕ) (_hu0 : 0 ≤ u) (hu1 : u ≤ 1) :
    texX u w ≤ w - 1 := by
  unfold texX
  have hc : (0 : ℝ) ≤ ((w - 1 : ℕ) : ℝ) := Nat.cast_nonneg _
  have hmul : u * ((w - 1 : ℕ) : ℝ) ≤ ((w - 1 : ℕ) : ℝ) := by nlinarith [hu1]
  have hfl : ⌊u * ((w - 1 : ℕ) : ℝ)⌋ ≤ ((w - 1 : ℕ) : ℤ) := by
    calc ⌊u * ((w - 1 : ℕ) : ℝ)⌋ ≤ ⌊((w - 1 : ℕ) : ℝ)⌋ :=
          Int.floor_le_floor hmul
    _ = ((w - 1 : ℕ) : ℤ) := Int.floor_natCast _
  have := Int.toNat_le_toNat hfl
  simpa using this

/-- C10: for a sky texture with `width ≥ 1`, `height ≥ 1` and a pixel array
of length `width·height·3`, the texel indices computed from clamped `u` and
`t` satisfy `x ≤ width−1` and `y ≤ height−1`, and all three channel
accesses `(y·width + x)·3 + k`, `k < 3`, are in bounds. -/
theorem sky_texture_lookup_in_bounds :
    ∀ (tex : SkyTexture) (a b : ℝ), 1 ≤ tex.width → 1 ≤ tex.height →
      tex.pixels.length = tex.width * tex.height * 3 →
      texX (clamp a) tex.width ≤ tex.width - 1 ∧
      texY (clamp b) tex.height ≤ tex.height - 1 ∧
      ∀ k, k < 3 →
        ((texY (clamp b) tex.height * tex.width + texX (clamp a) tex.width) * 3
            + k < tex.pixels.length ∧
          (tex.pixels.get? ((texY (clamp b) tex.height * tex.width +
            texX (clamp a) tex.width) * 3 + k)).isSome = true) := by
  intro tex a b hw hh hlen
  have hca := clamp_bounds a
  have hcb := clamp_bounds b
  have hx : texX (clamp a) tex.width ≤ tex.width - 1 :=
    texX_le (clamp a) tex.width hca.1 hca.2
  have hy : texY (clamp b) tex.height ≤ tex.height - 1 := by
    have : texY (clamp b) tex.height = texX (1 - clamp b) tex.height := rfl
    rw [this]
    exact texX_le (1 - clamp b) tex.height (by linarith [hcb.2])
      (by linarith [hcb.1])
  refine ⟨hx, hy, ?_⟩
  intro k hk
  set x := texX (clamp a) tex.width with hxdef
  set y := texY (clamp b) tex.height with hydef
  have hx1 : x + 1 ≤ tex.width := by omega
  have hy1 : y + 1 ≤ tex.height := by omega
  have hyx : y * tex.width + x + 1 ≤ tex.height * tex.width := by
    calc y * tex.width + x + 1 ≤ y * tex.width + tex.width := by omega
    _ = (y + 1) * tex.width := by ring
    _ ≤ tex.height * tex.width := Nat.mul_le_mul_right tex.width hy1
  have hidx : (y * tex.width + x) * 3 + k < tex.pixels.length := by
    rw [hlen]
    calc (y * tex.width + x) * 3 + k < (y * tex.width + x) * 3 + 3 := by omega
    _ = (y * tex.width + x + 1) * 3 := by ring
    _ ≤ tex.height * tex.width * 3 := by
          exact Nat.mul_le_mul_right 3 hyx
    _ = tex.width * tex.height * 3 := by ring
  refine ⟨hidx, ?_⟩
  rw [List.get?_eq_get hidx]
  rfl

/-- Witness for C10 at a concrete 2×2 texture. -/
theorem sky_texture_lookup_in_bounds_witness :
    texX (clamp 0.3) 2 ≤ 2 - 1 ∧
    texY (clamp 0.4) 2 ≤ 2 - 1 ∧
    ∀ k, k < 3 →
      ((texY (clamp 0.4) 2 * 2 + texX (clamp 0.3) 2) * 3 + k <
          (List.replicate 12 (0 : ℕ)).length ∧
        ((List.replicate 12 (0 : ℕ)).get? ((texY (clamp 0.4) 2 * 2 +
          texX (clamp 0.3) 2) * 3 + k)).isSome = true) :=
  sky_texture_lookup_in_bounds ⟨List.replicate 12 0, 2, 2⟩ 0.3 0.4
    (by norm_num) (by norm_num) (by simp)

theorem Point3D.length_eval (p : Point3D) (L : ℝ) (hL : 0 ≤ L)
    (h : p.x * p.x + p.y * p.y + p.z * p.z = L * L) : p.length = L := by
  unfold Point3D.length Point3D.distance
  have h2 : (p.x - 0) * (p.x - 0) + (p.y - 0) * (p.y - 0) +
      (p.z - 0) * (p.z - 0) = L * L := by
    rw [← h]
    ring
  show Real.sqrt ((p.x - 0) * (p.x - 0) + (p.y - 0) * (p.y - 0) +
    (p.z - 0) * (p.z - 0)) = L
  rw [h2]
  exact Real.sqrt_mul_self hL

theorem rayX_unit_y : (rayX.direction).unit_vector.y = 0 := by
  have hlen : rayX.direction.length = 1 :=
    Point3D.length_eval _ 1 (by norm_num) (by norm_num [rayX, Ray.new])
  show rayX.direction.y / rayX.direction.length = 0
  rw [hlen]
  norm_num [rayX, Ray.new]

theorem skyT_rayX : skyT rayX = 0.5 := by
  unfold skyT
  rw [rayX_unit_y]
  unfold clamp
  norm_num

theorem sceneSkyEmpty_miss :
    hit_world sceneSkyEmpty.objects rayX 0.001 f64MAX = none := rfl

/-- C6: when a ray hits nothing, `ray_color` returns black if no sky is
configured, and the gradient `((1−t)+t·0.5, (1−t)+t·0.7, (1−t)+t·1)` with
`t = clamp(0.5·(unit(D).y + 1))` for a gradient sky; with an empty world,
no lights, gradient sky, direction `(1,0,0)` and depth 2 the result is
exactly `(0.75, 0.85, 1.0)`. -/
theorem ray_color_sky_background :
    (∀ (ray : Ray) (scene : Config) (lights : List Sphere) (md depth : ℕ)
      (rng : List ℝ) (c : Srgb) (rng1 : List ℝ),
      RayColorEval ray scene lights md depth rng c rng1 →
      0 < depth →
      hit_world scene.objects ray 0.001 f64MAX = none →
      (scene.sky = none → c = Srgb.new 0 0 0) ∧
      (∀ sk, scene.sky = some sk → sk.texture = none →
        c = Srgb.new ((1 - skyT ray) * 1 + skyT ray * 0.5)
          ((1 - skyT ray) * 1 + skyT ray * 0.7)
          ((1 - skyT ray) * 1 + skyT ray * 1)))
    ∧ (∀ (rng : List ℝ),
      RayColorEval rayX sceneSkyEmpty [] 2 2 rng (Srgb.new 0.75 0.85 1) rng
      ∧ ∀ (c : Srgb) (rng1 : List ℝ),
        RayColorEval rayX sceneSkyEmpty [] 2 2 rng c rng1 →
        c = Srgb.new 0.75 0.85 1) := by
  have hgradcol : Srgb.new ((1 - skyT rayX) * 1 + skyT rayX * 0.5)
      ((1 - skyT rayX) * 1 + skyT rayX * 0.7)
      ((1 - skyT rayX) * 1 + skyT rayX * 1) = Srgb.new 0.75 0.85 1 := by
    rw [skyT_rayX]
    ext <;> norm_num [Srgb.new]
  constructor
  · intro ray scene lights md depth rng c rng1 h hdep hmiss
    cases h with
    | depthZero => omega
    | noHitNoSky =>
      refine ⟨fun _ => rfl, fun sk hsk _ => ?_⟩
      simp_all
    | noHitGradient =>
      refine ⟨fun hnone => ?_, fun sk hsk _ => ?_⟩
      · simp_all
      · rfl
    | noHitTexture =>
      refine ⟨fun hnone => ?_, fun sk hsk htex2 => ?_⟩
      · simp_all
      · simp_all
    | hitAbsorbed => simp_all
    | hitEmissive => simp_all
    | hitScattered => simp_all
  · intro rng
    have hgrad := RayColorEval.noHitGradient rayX sceneSkyEmpty [] 2 2 rng
      { texture := none } (by norm_num) sceneSkyEmpty_miss rfl rfl
    rw [hgradcol] at hgrad
    refine ⟨hgrad, ?_⟩
    intro c rng1 h
    cases h with
    | noHitNoSky => simp_all [sceneSkyEmpty]
    | noHitGradient => exact hgradcol
    | noHitTexture =>
      simp_all [sceneSkyEmpty]
      subst_vars
      simp_all
    | hitAbsorbed => simp_all [sceneSkyEmpty_miss]
    | hitEmissive => simp_all [sceneSkyEmpty_miss]
    | hitScattered => simp_all [sceneSkyEmpty_miss]

/-- Witness for C6: the concrete regression evaluation and its uniqueness. -/
theorem ray_color_sky_background_witness :
    RayColorEval rayX sceneSkyEmpty [] 2 2 [] (Srgb.new 0.75 0.85 1) [] ∧
    Srgb.new 0.75 0.85 1 = Srgb.new 0.75 0.85 1 :=
  ⟨(ray_color_sky_background.2 []).1,
    (ray_color_sky_background.2 []).2 (Srgb.new 0.75 0.85 1) []
      ((ray_color_sky_background.2 []).1)⟩

/-- C4: characterization of the direct light-sampling block of `ray_color`.
The estimate is computed iff the lights list is nonempty, the drawn `f64`
exceeds `1 − lights.len()·prob` (with `prob = 0.05` for Glass and `0.1`
otherwise), and `depth > max_depth − 2`; when computed it is the
per-channel average over all lights of `albedo` times the radiance of a ray
from the hit point toward the light's center evaluated recursively at depth
1 (with `max_depth = 2`); and on the scattered path the estimate is added
to the attenuated indirect term at `depth − 1`, each channel clamped. -/
theorem ray_color_light_sampling :
    (∀ (scene : Config) (lights : List Sphere) (hr : HitRecord)
      (albedo : Srgb) (md depth : ℕ) (rng : List ℝ) (lc : Srgb)
      (rng1 : List ℝ),
      LightGateEval scene lights hr albedo md depth rng lc rng1 →
      (lights = [] → lc = Srgb.new 0 0 0 ∧ rng1 = rng) ∧
      (lights ≠ [] → ∃ d rng2, rng = d :: rng2 ∧
        ((¬(d > 1 - (lights.length : ℝ) * probOf hr.material) ∨
            ¬(depth > md - 2)) →
          lc = Srgb.new 0 0 0 ∧ rng1 = rng2) ∧
        (d > 1 - (lights.length : ℝ) * probOf hr.material →
          depth > md - 2 →
          ∃ s rng3,
            LightsEval scene lights lights hr.point albedo rng2 s rng3 ∧
            lc = Srgb.new (s.red / (lights.length : ℝ))
              (s.green / (lights.length : ℝ))
              (s.blue / (lights.length : ℝ)) ∧
            rng1 = rng3)))
    ∧ ((∀ g, probOf (Material.glass g) = 0.05) ∧
      (∀ alb, probOf (Material.lambertian alb) = 0.1) ∧
      (∀ alb f, probOf (Material.metal alb f) = 0.1) ∧
      (∀ em, probOf (Material.light em) = 0.1))
    ∧ (∀ (scene : Config) (all : List Sphere) (p : Point3D) (albedo : Srgb)
      (rem : List Sphere) (rng : List ℝ) (s : Srgb) (rng1 : List ℝ),
      LightsEval scene all rem p albedo rng s rng1 →
      ∃ tcs : List Srgb,
        List.Forall₂ (fun (l : Sphere) (tc : Srgb) =>
          ∃ ra rb,
            RayColorEval (Ray.new p (l.center - p)) scene all 2 1 ra tc rb)
          rem tcs ∧
        s.red = (tcs.map fun tc => albedo.red * tc.red).sum ∧
        s.green = (tcs.map fun tc => albedo.green * tc.green).sum ∧
        s.blue = (tcs.map fun tc => albedo.blue * tc.blue).sum)
    ∧ (∀ (ray : Ray) (scene : Config) (lights : List Sphere) (md depth : ℕ)
      (rng : List ℝ) (c : Srgb) (rng1 : List ℝ),
      RayColorEval ray scene lights md depth rng c rng1 →
      0 < depth →
      hit_world scene.objects ray 0.001 f64MAX = none ∨
      ∃ hr, hit_world scene.objects ray 0.001 f64MAX = some hr ∧
        ((∃ rngA, ScatterEval hr.material ray hr rng none rngA ∧
            c = Srgb.new 0 0 0 ∧ rng1 = rngA) ∨
        (∃ albedo rngA lc rngB,
          ScatterEval hr.material ray hr rng (some (none, albedo)) rngA ∧
          LightGateEval scene lights hr albedo md depth rngA lc rngB ∧
          c = albedo ∧ rng1 = rngB) ∨
        (∃ sr albedo rngA lc rngB tc rngC,
          ScatterEval hr.material ray hr rng (some (some sr, albedo)) rngA ∧
          LightGateEval scene lights hr albedo md depth rngA lc rngB ∧
          RayColorEval sr scene lights md (depth - 1) rngB tc rngC ∧
          c = Srgb.new (clamp (lc.red + albedo.red * tc.red))
            (clamp (lc.green + albedo.green * tc.green))
            (clamp (lc.blue + albedo.blue * tc.blue)) ∧
          rng1 = rngC))) := by
  refine ⟨?_, ⟨fun g => rfl, fun alb => rfl, fun alb f => rfl, fun em => rfl⟩,
    ?_, ?_⟩
  · intro scene lights hr albedo md depth rng lc rng1 hlg
    cases hlg with
    | noLights =>
      exact ⟨fun _ => ⟨rfl, rfl⟩, fun hne => absurd rfl hne⟩
    | drawFail _ _ _ _ _ _ d _ hne hd =>
      exact ⟨fun heq => absurd heq hne,
        fun _ => ⟨d, rng1, rfl, fun _ => ⟨rfl, rfl⟩,
          fun hA _ => absurd hA hd⟩⟩
    | depthFail _ _ _ _ _ _ d _ hne hd hdep =>
      exact ⟨fun heq => absurd heq hne,
        fun _ => ⟨d, rng1, rfl, fun _ => ⟨rfl, rfl⟩,
          fun _ hB => absurd hB hdep⟩⟩
    | gatePass _ _ _ _ _ _ d rng2 _ s hne hd hdep hsum =>
      exact ⟨fun heq => absurd heq hne,
        fun _ => ⟨d, rng2, rfl,
          fun hor => hor.elim (fun hA2 => absurd hd hA2)
            (fun hB2 => absurd hdep hB2),
          fun _ _ => ⟨s, rng1, hsum, rfl, rfl⟩⟩⟩
  · intro scene all p albedo rem
    induction rem with
    | nil =>
      intro rng s rng1 h
      cases h
      exact ⟨[], List.Forall₂.nil, rfl, rfl, rfl⟩
    | cons l rest ih =>
      intro rng s rng1 h
      cases h with
      | cons _ _ _ _ _ _ _ rngMid _ tc s2 hprobe hrest =>
        obtain ⟨tcs, hfa, hred, hgreen, hblue⟩ := ih _ _ _ hrest
        refine ⟨tc :: tcs, List.Forall₂.cons ⟨rng, rngMid, hprobe⟩ hfa,
          ?_, ?_, ?_⟩
        · simp [Srgb.new, List.map_cons, List.sum_cons, hred]
        · simp [Srgb.new, List.map_cons, List.sum_cons, hgreen]
        · simp [Srgb.new, List.map_cons, List.sum_cons, hblue]
  · intro ray scene lights md depth rng c rng1 h hdep
    cases h with
    | depthZero => omega
    | noHitNoSky =>
      exact Or.inl ‹hit_world scene.objects ray 0.001 f64MAX = none›
    | noHitGradient =>
      exact Or.inl ‹hit_world scene.objects ray 0.001 f64MAX = none›
    | noHitTexture =>
      exact Or.inl ‹hit_world scene.objects ray 0.001 f64MAX = none›
    | hitAbsorbed =>
      exact Or.inr ⟨_, by assumption,
        Or.inl ⟨_, by assumption, rfl, rfl⟩⟩
    | hitEmissive =>
      exact Or.inr ⟨_, by assumption,
        Or.inr (Or.inl ⟨_, _, _, _, by assumption, by assumption, rfl, rfl⟩)⟩
    | hitScattered =>
      exact Or.inr ⟨_, by assumption,
        Or.inr (Or.inr ⟨_, _, _, _, _, _, _, by assumption, by assumption,
          by assumption, rfl, rfl⟩)⟩

theorem eUnit_hit_std : eUnit.hit rayUp 0.001 f64MAX = some hrUp :=
  eUnit.hit_rootA_first rayUp 0.001 f64MAX (by rw [eUnit_disc_up]; norm_num)
    (by rw [eUnit_rootA_up]; norm_num [f64MAX])
    (by rw [eUnit_rootA_up]; norm_num)

theorem sceneOneBody_hit :
    hit_world sceneOneBody.objects rayUp 0.001 f64MAX = some hrUp := by
  show hit_world_go [Body.ellipsoid eUnit] rayUp 0.001 f64MAX none = some hrUp
  have hb : (Body.ellipsoid eUnit).hit rayUp 0.001 f64MAX = some hrUp :=
    eUnit_hit_std
  rw [hit_world_go, hb]
  rfl

/-- Witness for C4: the empty-lights gate at a concrete hit record, and the
inversion of a full concrete scattered evaluation with one body. -/
theorem ray_color_light_sampling_witness :
    (Srgb.new 0 0 0 = Srgb.new 0 0 0 ∧ ([] : List ℝ) = []) ∧
    (hit_world sceneOneBody.objects rayUp 0.001 f64MAX = none ∨
      ∃ hr, hit_world sceneOneBody.objects rayUp 0.001 f64MAX = some hr ∧
        ((∃ rngA, ScatterEval hr.material rayUp hr [] none rngA ∧
            Srgb.new (clamp (0 + 0.5 * 0)) (clamp (0 + 0.5 * 0))
              (clamp (0 + 0.5 * 0)) = Srgb.new 0 0 0 ∧
            ([] : List ℝ) = rngA) ∨
        (∃ albedo rngA lc rngB,
          ScatterEval hr.material rayUp hr [] (some (none, albedo)) rngA ∧
          LightGateEval sceneOneBody [] hr albedo 2 1 rngA lc rngB ∧
          Srgb.new (clamp (0 + 0.5 * 0)) (clamp (0 + 0.5 * 0))
            (clamp (0 + 0.5 * 0)) = albedo ∧ ([] : List ℝ) = rngB) ∨
        (∃ sr albedo rngA lc rngB tc rngC,
          ScatterEval hr.material rayUp hr [] (some (some sr, albedo)) rngA ∧
          LightGateEval sceneOneBody [] hr albedo 2 1 rngA lc rngB ∧
          RayColorEval sr sceneOneBody [] 2 (1 - 1) rngB tc rngC ∧
          Srgb.new (clamp (0 + 0.5 * 0)) (clamp (0 + 0.5 * 0))
            (clamp (0 + 0.5 * 0)) =
            Srgb.new (clamp (lc.red + albedo.red * tc.red))
              (clamp (lc.green + albedo.green * tc.green))
              (clamp (lc.blue + albedo.blue * tc.blue)) ∧
          ([] : List ℝ) = rngC))) := by
  have hsc : ScatterEval hrUp.material rayUp hrUp []
      (some (some (Ray.new hrUp.point (Point3D.new 0 (-1) 0)),
        Srgb.new 0.5 0.5 0.5)) [] :=
    ScatterEval.lambertian (Srgb.new 0.5 0.5 0.5) rayUp hrUp
      (Point3D.new 0 (-1) 0) [] []
  have hlg : LightGateEval sceneOneBody [] hrUp (Srgb.new 0.5 0.5 0.5) 2 1 []
      (Srgb.new 0 0 0) [] :=
    LightGateEval.noLights sceneOneBody hrUp (Srgb.new 0.5 0.5 0.5) 2 1 []
  have hrec : RayColorEval (Ray.new hrUp.point (Point3D.new 0 (-1) 0))
      sceneOneBody [] 2 (1 - 1) [] (Srgb.new 0 0 0) [] :=
    RayColorEval.depthZero (Ray.new hrUp.point (Point3D.new 0 (-1) 0))
      sceneOneBody [] 2 []
  have hderiv : RayColorEval rayUp sceneOneBody [] 2 1 []
      (Srgb.new (clamp (0 + 0.5 * 0)) (clamp (0 + 0.5 * 0))
        (clamp (0 + 0.5 * 0))) [] :=
    RayColorEval.hitScattered rayUp sceneOneBody [] 2 1 [] [] [] [] hrUp
      (Ray.new hrUp.point (Point3D.new 0 (-1) 0)) (Srgb.new 0.5 0.5 0.5)
      (Srgb.new 0 0 0) (Srgb.new 0 0 0) (by norm_num) sceneOneBody_hit
      hsc hlg hrec
  constructor
  · exact (ray_color_light_sampling.1 sceneOneBody [] hrUp
      (Srgb.new 0.5 0.5 0.5) 2 1 [] (Srgb.new 0 0 0) []
      (LightGateEval.noLights sceneOneBody hrUp
        (Srgb.new 0.5 0.5 0.5) 2 1 [])).1 rfl
  · exact ray_color_light_sampling.2.2.2 rayUp sceneOneBody [] 2 1 []
      (Srgb.new (clamp (0 + 0.5 * 0)) (clamp (0 + 0.5 * 0))
        (clamp (0 + 0.5 * 0))) [] hderiv (by norm_num)

end Raytracer
